import Mathlib

/-!
# Verification of the cart store and payment reconciliation core

A shallow embedding of the state-bearing core of the `fullstack-shop-ecommerce-v2`
repository:

* the Zustand cart store (`src/zustand/store.ts`): `toggleCart`, `addProduct`,
  `removeProduct`, `setPaymentIntent`, `setCheckout`, `clearCart`;
* the order amount calculator and the payment-intent reconciler
  (`src/pages/api/create-payment-intent.ts`, first handler);
* the Stripe webhook consumer (second handler in the same file).

JavaScript numeric coercions that matter to the behaviour (a `null` operand of
`*` coercing to `0`, `undefined` arithmetic producing `NaN`, comparisons with
`NaN`/`undefined` being `false`) are modelled explicitly via `JsNum`.
-/

/-- An integer-valued JavaScript number, or `NaN`.  The source only ever stores
integers in `quantity`/`unit_amount` (Stripe amounts are minor currency units),
but `undefined` arithmetic can produce `NaN`, so the model carries it. -/
inductive JsNum where
  | nan : JsNum
  | int : Int → JsNum
deriving DecidableEq, Repr

/-- JavaScript `q! + 1` on a possibly-missing (`undefined`) quantity: `undefined + 1` is
`NaN`, `NaN + 1` is `NaN`, an integer increments. -/
def jsIncr : Option JsNum → JsNum
  | some (JsNum.int n) => JsNum.int (n + 1)
  | _ => JsNum.nan

/-- JavaScript `q! - 1` on a possibly-missing quantity, with the same `NaN` propagation. -/
def jsDecr : Option JsNum → JsNum
  | some (JsNum.int n) => JsNum.int (n - 1)
  | _ => JsNum.nan

/-- JavaScript `q! > 1` on a possibly-missing quantity: comparisons against `undefined`
or `NaN` are `false` in JavaScript. -/
def jsGt1 : Option JsNum → Bool
  | some (JsNum.int n) => 1 < n
  | _ => false

/-- JavaScript `+` on two numbers: `NaN` absorbs. -/
def jsAdd : JsNum → JsNum → JsNum
  | JsNum.int a, JsNum.int b => JsNum.int (a + b)
  | _, _ => JsNum.nan

/-- JavaScript `unit_amount! * quantity!` where `unit_amount : number | null` and
`quantity` may be missing: `ToNumber(null) = 0`, so a `null` unit amount
multiplies as `0`; a missing or `NaN` quantity gives `NaN`. -/
def jsMulOpt (a : Option Int) (q : Option JsNum) : JsNum :=
  match q with
  | some (JsNum.int n) => JsNum.int ((a.getD 0) * n)
  | _ => JsNum.nan

/-- JavaScript `parseFloat(x)` on a `number | null`: a number parses to itself,
`parseFloat(null)` is `NaN`. -/
def parseFloatJs : Option Int → JsNum
  | some n => JsNum.int n
  | none => JsNum.nan

/-- Cart line item, `src/types/AddCartType.ts`:
`{ name: string; images: string; id: string; quantity?: number | 1;
   unit_amount: number | null }`.
`quantity = none` models a missing (`undefined`) field; `unit_amount = none`
models `null`. -/
structure AddCartType where
  name : String
  images : String
  id : String
  quantity : Option JsNum
  unit_amount : Option Int
deriving DecidableEq, Repr

/-- The cart store's state (`CartStateType` in `src/zustand/store.ts`,
data fields only; the actions are modelled as functions below). -/
structure CartState where
  isOpen : Bool
  cart : List AddCartType
  paymentIntent : String
  onCheckout : String
deriving DecidableEq, Repr

/-- The store's initial state (`setupFunction`'s data fields). -/
def initialCartState : CartState :=
  { cart := [], isOpen := false, paymentIntent := "", onCheckout := "cart" }

/-- Action `toggleCart`: `{ ...state, isOpen: !state.isOpen }`. -/
def toggleCart (state : CartState) : CartState :=
  { state with isOpen := !state.isOpen }

/-- Action `addProduct(item)`: if `state.cart.find(c => c.id === item.id)` succeeds,
map over the cart incrementing the quantity of every entry with the same id
(`quantity: cartItem.quantity! + 1`); otherwise append
`{ ...item, quantity: 1 }`. -/
def addProduct (item : AddCartType) (state : CartState) : CartState :=
  match state.cart.find? (fun cartItem => cartItem.id == item.id) with
  | some _ =>
      { state with
        cart := state.cart.map (fun cartItem =>
          if cartItem.id == item.id then
            { cartItem with quantity := some (jsIncr cartItem.quantity) }
          else cartItem) }
  | none =>
      { state with cart := state.cart ++ [{ item with quantity := some (JsNum.int 1) }] }

/-- Action `removeProduct(item)`: if the found entry exists and
`itemExists.quantity! > 1`, map over the cart decrementing the matching
entries; otherwise filter out every entry with the item's id. -/
def removeProduct (item : AddCartType) (state : CartState) : CartState :=
  match state.cart.find? (fun cartItem => cartItem.id == item.id) with
  | some itemExists =>
      if jsGt1 itemExists.quantity then
        { state with
          cart := state.cart.map (fun cartItem =>
            if cartItem.id == item.id then
              { cartItem with quantity := some (jsDecr cartItem.quantity) }
            else cartItem) }
      else
        { state with cart := state.cart.filter (fun cartItem => cartItem.id != item.id) }
  | none =>
      { state with cart := state.cart.filter (fun cartItem => cartItem.id != item.id) }

/-- Action `setPaymentIntent(value)`: `{ ...state, paymentIntent: value }`. -/
def setPaymentIntent (value : String) (state : CartState) : CartState :=
  { state with paymentIntent := value }

/-- Action `setCheckout(value)`: `{ ...state, onCheckout: value }`. -/
def setCheckout (value : String) (state : CartState) : CartState :=
  { state with onCheckout := value }

/-- Action `clearCart()`: `{ ...state, cart: [] }`. -/
def clearCart (state : CartState) : CartState :=
  { state with cart := [] }

/-- One call in a sequence of `addProduct`/`removeProduct` invocations. -/
inductive CartOp where
  | add : AddCartType → CartOp
  | remove : AddCartType → CartOp
deriving DecidableEq, Repr

/-- Apply one cart operation to the store state. -/
def applyOp (state : CartState) : CartOp → CartState
  | CartOp.add item => addProduct item state
  | CartOp.remove item => removeProduct item state

/-- Run a sequence of cart operations from a given state. -/
def runOpsFrom (state : CartState) (ops : List CartOp) : CartState :=
  ops.foldl applyOp state

/-- Run a sequence of cart operations from the empty initial cart. -/
def runOps (ops : List CartOp) : CartState :=
  runOpsFrom initialCartState ops

example :
    (runOps [CartOp.add { name := "A", images := "i", id := "p1", quantity := none, unit_amount := some 500 }]).cart
      = [{ name := "A", images := "i", id := "p1", quantity := some (JsNum.int 1), unit_amount := some 500 }] := by
  decide

/-!
## Server side: `src/pages/api/create-payment-intent.ts`

The file holds two handlers: the payment-intent reconciler and the Stripe
webhook consumer.  External collaborators (Stripe, Prisma) are modelled as
explicit state: a list of Stripe payment intents and a list of persisted
`Order` rows.
-/

/-- Function `calcOrderAmount(items)`:
`items.reduce((acc, item) => acc + item.unit_amount! * item.quantity!, 0)`.
The `!` assertions have no runtime effect, so a `null` `unit_amount` is
coerced to `0` by `*` and a missing quantity yields `NaN`. -/
def calcOrderAmount (items : List AddCartType) : JsNum :=
  items.foldl (fun acc item => jsAdd acc (jsMulOpt item.unit_amount item.quantity)) (JsNum.int 0)

/-- A product row as created by the handler's
`items.map(item => ({ name, description: item.description || null,
unit_amount: parseFloat(item.unit_amount), image, quantity }))`.
`AddCartType` carries neither `description` nor `image`, so at runtime those
evaluate to `null` and `undefined` respectively. -/
structure ProductRow where
  name : String
  description : Option String
  unit_amount : JsNum
  image : Option String
  quantity : Option JsNum
deriving DecidableEq, Repr

/-- The row built for one cart item by the handler's `items.map`. -/
def toProductRow (item : AddCartType) : ProductRow :=
  { name := item.name
    description := none
    unit_amount := parseFloatJs item.unit_amount
    image := none
    quantity := item.quantity }

/-- A persisted `Order` row (Prisma `Order` model as used by the handlers). -/
structure OrderRecord where
  id : Nat
  userId : String
  amount : JsNum
  currency : String
  status : String
  paymentIntentID : String
  products : List ProductRow
deriving DecidableEq, Repr

/-- A Stripe payment intent, as far as the handlers observe it. -/
structure StripeIntent where
  id : String
  amount : JsNum
deriving DecidableEq, Repr

/-- The Stripe side: the live payment intents plus a counter for fresh ids. -/
structure StripeState where
  intents : List StripeIntent
  nextId : Nat
deriving DecidableEq, Repr

/-- The persisted database: `Order` rows plus a counter for fresh row ids. -/
structure Db where
  orders : List OrderRecord
  nextId : Nat
deriving DecidableEq, Repr

/-- Call `stripe.paymentIntents.retrieve(id)`, modelled as a lookup that reports a
missing/invalid intent as `none` (the falsiness the handler's
`if (current_intent)` check tests for). -/
def stripeRetrieve (s : StripeState) (pid : String) : Option StripeIntent :=
  s.intents.find? (fun i => i.id == pid)

/-- Call `stripe.paymentIntents.update(id, { amount })`: the mutated Stripe state. -/
def stripeUpdateAmount (s : StripeState) (pid : String) (amount : JsNum) : StripeState :=
  { s with intents := s.intents.map (fun i => if i.id == pid then { i with amount := amount } else i) }

/-- Call `stripe.paymentIntents.create({ amount, ... })`: a fresh intent id. -/
def stripeCreate (s : StripeState) (amount : JsNum) : StripeIntent × StripeState :=
  let intent : StripeIntent := { id := "pi_" ++ toString s.nextId, amount := amount }
  (intent, { intents := s.intents ++ [intent], nextId := s.nextId + 1 })

/-- The HTTP response the reconciler sends, or the absence of one: the source's
`if (current_intent)` check has no `else` branch, so when the retrieved intent
is falsy the function returns without responding (`noResponse`). -/
inductive ApiResponse where
  | forbidden : ApiResponse
  | orderNotFound : ApiResponse
  | okUpdated : StripeIntent → OrderRecord → ApiResponse
  | okCreated : StripeIntent → OrderRecord → ApiResponse
  | noResponse : ApiResponse
deriving DecidableEq, Repr

/-- The reconciler's request body: `{ items, payment_intent_id }`.  A missing
`payment_intent_id` is modelled as `""` (both `undefined` and the store's
initial `''` are falsy for the `if (payment_intent_id)` test). -/
structure ReqBody where
  items : List AddCartType
  payment_intent_id : String
deriving DecidableEq, Repr

/-- The reconciler (`export default async function handler` in
`src/pages/api/create-payment-intent.ts`).  `sessionUser` is
`getServerSession`'s user id (`none` when not logged in).  Returns the
response together with the resulting Stripe and database states. -/
def reconcilerHandler (sessionUser : Option String) (body : ReqBody)
    (stripe : StripeState) (db : Db) : ApiResponse × StripeState × Db :=
  match sessionUser with
  | none => (ApiResponse.forbidden, stripe, db)
  | some userId =>
    if body.payment_intent_id != "" then
      match stripeRetrieve stripe body.payment_intent_id with
      | some current_intent =>
          -- `stripe.paymentIntents.update` mutates the intent's amount and
          -- returns the updated intent object.
          let updated_intent : StripeIntent :=
            { current_intent with amount := calcOrderAmount body.items }
          let stripe' := stripeUpdateAmount stripe body.payment_intent_id (calcOrderAmount body.items)
          match db.orders.find? (fun o => o.paymentIntentID == updated_intent.id) with
          | none => (ApiResponse.orderNotFound, stripe', db)
          | some existing_order =>
              let updated_order : OrderRecord :=
                { existing_order with
                  amount := calcOrderAmount body.items
                  products := body.items.map toProductRow }
              let db' : Db :=
                { db with orders := db.orders.map (fun o =>
                    if o.id == existing_order.id then updated_order else o) }
              (ApiResponse.okUpdated updated_intent updated_order, stripe', db')
      | none =>
          -- `if (current_intent)` failed and the enclosing `if` has no `else`
          -- on this path: the handler falls through without sending a response.
          (ApiResponse.noResponse, stripe, db)
    else
      let (new_payment_intent, stripe') := stripeCreate stripe (calcOrderAmount body.items)
      let newOrder : OrderRecord :=
        { id := db.nextId
          userId := userId
          amount := calcOrderAmount body.items
          currency := "usd"
          status := "pending"
          paymentIntentID := new_payment_intent.id
          products := body.items.map toProductRow }
      (ApiResponse.okCreated new_payment_intent newOrder,
        stripe', { orders := db.orders ++ [newOrder], nextId := db.nextId + 1 })

/-- A verified Stripe webhook event, after `constructEvent` succeeded.
`chargeSucceeded` carries `charge.payment_intent`, which the source guards
with `typeof charge.payment_intent === 'string'`. -/
inductive StripeEvent where
  | paymentIntentCreated : StripeEvent
  | chargeSucceeded : Option String → StripeEvent
  | other : String → StripeEvent
deriving DecidableEq, Repr

/-- Call `prisma.order.update({ where: { paymentIntentID }, data: { status } })`:
Prisma's `update` throws (error code P2025, record to update not found) when
no row matches the unique `where` clause; otherwise it writes the new status. -/
def prismaUpdateStatus (orders : List OrderRecord) (pid : String) (status : String) :
    Except Unit (List OrderRecord) :=
  if orders.any (fun o => o.paymentIntentID == pid) then
    Except.ok (orders.map (fun o =>
      if o.paymentIntentID == pid then { o with status := status } else o))
  else
    Except.error ()

/-- Outcome of one webhook delivery: the acknowledgment `res.json({received:
true})` with the resulting orders, or an uncaught exception escaping the
handler (the `switch` is outside the `try`/`catch`). -/
inductive WebhookResult where
  | acknowledged : List OrderRecord → WebhookResult
  | errorThrown : List OrderRecord → WebhookResult
deriving DecidableEq, Repr

/-- The webhook consumer (second `handler` in
`src/pages/api/create-payment-intent.ts`), applied to an already verified
event: `charge.succeeded` updates the matching order's status to
`"complete"`; every case falls through to `res.json({ received: true })`
unless the Prisma update throws. -/
def webhookHandler (event : StripeEvent) (orders : List OrderRecord) : WebhookResult :=
  match event with
  | StripeEvent.paymentIntentCreated => WebhookResult.acknowledged orders
  | StripeEvent.chargeSucceeded paymentIntent =>
    match paymentIntent with
    | some pid =>
      match prismaUpdateStatus orders pid "complete" with
      | Except.ok orders' => WebhookResult.acknowledged orders'
      | Except.error _ => WebhookResult.errorThrown orders
    | none => WebhookResult.acknowledged orders
  | StripeEvent.other _ => WebhookResult.acknowledged orders

/-- Number of `addProduct` calls for a given product id in a call sequence. -/
def countAdds (ops : List CartOp) (p : String) : Nat :=
  (ops.filter (fun op => match op with
    | CartOp.add item => item.id == p
    | CartOp.remove _ => false)).length

/-- Number of `removeProduct` calls for a given product id in a call sequence. -/
def countRemoves (ops : List CartOp) (p : String) : Nat :=
  (ops.filter (fun op => match op with
    | CartOp.add _ => false
    | CartOp.remove item => item.id == p)).length

/-- One step of the specification-side quantity evolution for product `p`:
an `add` of `p` increments, a `remove` of `p` decrements clamping at `0`
(`Nat` subtraction), any other call leaves the quantity alone. -/
def specStep (p : String) (q : Nat) : CartOp → Nat
  | CartOp.add item => if item.id = p then q + 1 else q
  | CartOp.remove item => if item.id = p then q - 1 else q

/-- The specification-side quantity of product `p` after a call sequence,
starting from the empty cart: the left fold of `specStep`. -/
def specQuantity (ops : List CartOp) (p : String) : Nat :=
  ops.foldl (specStep p) 0

/-- A cart agrees with a per-product quantity function: a product is absent
exactly when its quantity is `0`, and a found line item stores exactly that
quantity. -/
def CartMatches (s : CartState) (f : String → Nat) : Prop :=
  ∀ p, (s.cart.find? (fun c => c.id == p) = none ↔ f p = 0) ∧
    (∀ c, s.cart.find? (fun c => c.id == p) = some c →
      c.quantity = some (JsNum.int (f p)))

/-!
## Helper lemmas
-/

theorem jsAdd_assoc (a b c : JsNum) : jsAdd (jsAdd a b) c = jsAdd a (jsAdd b c) := by
  cases a <;> cases b <;> cases c <;> simp [jsAdd, Int.add_assoc]

theorem jsAdd_zero_right (a : JsNum) : jsAdd a (JsNum.int 0) = a := by
  cases a <;> simp [jsAdd]

theorem jsAdd_zero_left (a : JsNum) : jsAdd (JsNum.int 0) a = a := by
  cases a <;> simp [jsAdd]

/-- Folding the amount accumulator from an arbitrary start is the start
`jsAdd`-ed with the fold from `0`. -/
theorem calcOrderAmount_foldl_shift (items : List AddCartType) (acc : JsNum) :
    items.foldl (fun acc item => jsAdd acc (jsMulOpt item.unit_amount item.quantity)) acc
      = jsAdd acc (calcOrderAmount items) := by
  induction items generalizing acc with
  | nil => simp [calcOrderAmount, List.foldl, jsAdd_zero_right]
  | cons i l ih =>
      simp only [calcOrderAmount, List.foldl] at *
      rw [ih, ih (jsAdd (JsNum.int 0) (jsMulOpt i.unit_amount i.quantity))]
      rw [jsAdd_zero_left, jsAdd_assoc]

/-- A `find?` over a `filter` that removed exactly the matching elements
finds nothing. -/
theorem find?_filter_compl {α : Type} (l : List α) (p : α → Bool) :
    (l.filter (fun a => !(p a))).find? p = none := by
  induction l with
  | nil => simp
  | cons a l ih =>
      by_cases h : p a = true
      · simp [List.filter, h, ih]
      · simp only [Bool.not_eq_true] at h
        simp [List.filter, List.find?, h, ih]

/-!
## Claims about the cart store
-/

/-- C8: `addProduct` on an item whose id is not yet in the cart appends a line
item with quantity exactly `1`, whatever quantity the input carried. -/
theorem C8_add_new_item_stores_quantity_one (item : AddCartType) (s : CartState)
    (h : s.cart.find? (fun cartItem => cartItem.id == item.id) = none) :
    (addProduct item s).cart = s.cart ++ [{ item with quantity := some (JsNum.int 1) }] := by
  unfold addProduct
  rw [h]

theorem C8_add_new_item_stores_quantity_one_witness :
    (initialCartState.cart.find? (fun cartItem =>
        cartItem.id == "p1") = none) ∧
    (addProduct { name := "A", images := "i", id := "p1", quantity := some (JsNum.int 5), unit_amount := some 500 }
        initialCartState).cart
      = initialCartState.cart ++
          [{ name := "A", images := "i", id := "p1", quantity := some (JsNum.int 1), unit_amount := some 500 }] :=
  ⟨by decide,
   C8_add_new_item_stores_quantity_one
     { name := "A", images := "i", id := "p1", quantity := some (JsNum.int 5), unit_amount := some 500 }
     initialCartState (by decide)⟩

/-- C9: each store action touches only its target field: `toggleCart` only
`isOpen`; `addProduct`, `removeProduct` and `clearCart` only `cart`;
`setPaymentIntent` only `paymentIntent`; `setCheckout` only `onCheckout`. -/
theorem C9_actions_frame (s : CartState) (item : AddCartType) (v : String) :
    ((toggleCart s).cart = s.cart ∧ (toggleCart s).paymentIntent = s.paymentIntent ∧
        (toggleCart s).onCheckout = s.onCheckout) ∧
    ((addProduct item s).isOpen = s.isOpen ∧ (addProduct item s).paymentIntent = s.paymentIntent ∧
        (addProduct item s).onCheckout = s.onCheckout) ∧
    ((removeProduct item s).isOpen = s.isOpen ∧ (removeProduct item s).paymentIntent = s.paymentIntent ∧
        (removeProduct item s).onCheckout = s.onCheckout) ∧
    ((clearCart s).isOpen = s.isOpen ∧ (clearCart s).paymentIntent = s.paymentIntent ∧
        (clearCart s).onCheckout = s.onCheckout) ∧
    ((setPaymentIntent v s).isOpen = s.isOpen ∧ (setPaymentIntent v s).cart = s.cart ∧
        (setPaymentIntent v s).onCheckout = s.onCheckout) ∧
    ((setCheckout v s).isOpen = s.isOpen ∧ (setCheckout v s).cart = s.cart ∧
        (setCheckout v s).paymentIntent = s.paymentIntent) := by
  refine ⟨⟨rfl, rfl, rfl⟩, ?_, ?_, ⟨rfl, rfl, rfl⟩, ⟨rfl, rfl, rfl⟩, ⟨rfl, rfl, rfl⟩⟩
  · unfold addProduct
    split <;> exact ⟨rfl, rfl, rfl⟩
  · unfold removeProduct
    split
    · split <;> exact ⟨rfl, rfl, rfl⟩
    · exact ⟨rfl, rfl, rfl⟩

/-- C10: if the entry `removeProduct` finds for the item's id has a missing
(`undefined`) quantity, the comparison `quantity! > 1` is `false`, so the
entry is deleted from the cart rather than decremented. -/
theorem C10_remove_missing_quantity_deletes (item itemExists : AddCartType) (s : CartState)
    (hfind : s.cart.find? (fun cartItem => cartItem.id == item.id) = some itemExists)
    (hq : itemExists.quantity = none) :
    (removeProduct item s).cart = s.cart.filter (fun cartItem => cartItem.id != item.id) ∧
    (removeProduct item s).cart.find? (fun cartItem => cartItem.id == item.id) = none := by
  have hcart : (removeProduct item s).cart = s.cart.filter (fun cartItem => cartItem.id != item.id) := by
    unfold removeProduct
    rw [hfind]
    simp [hq, jsGt1]
  refine ⟨hcart, ?_⟩
  rw [hcart]
  have h := find?_filter_compl s.cart (fun cartItem => cartItem.id == item.id)
  simp only [bne] at h ⊢
  exact h

theorem C10_remove_missing_quantity_deletes_witness :
    (({ initialCartState with
        cart := [{ name := "A", images := "i", id := "p1", quantity := none, unit_amount := some 500 }] } :
          CartState).cart.find? (fun cartItem => cartItem.id == "p1")
        = some { name := "A", images := "i", id := "p1", quantity := none, unit_amount := some 500 }) ∧
    (removeProduct { name := "A", images := "i", id := "p1", quantity := none, unit_amount := some 500 }
        { initialCartState with
          cart := [{ name := "A", images := "i", id := "p1", quantity := none, unit_amount := some 500 }] }).cart
      = ({ initialCartState with
          cart := [{ name := "A", images := "i", id := "p1", quantity := none, unit_amount := some 500 }] } :
            CartState).cart.filter (fun cartItem => cartItem.id != "p1") ∧
    (removeProduct { name := "A", images := "i", id := "p1", quantity := none, unit_amount := some 500 }
        { initialCartState with
          cart := [{ name := "A", images := "i", id := "p1", quantity := none, unit_amount := some 500 }] }).cart.find?
        (fun cartItem => cartItem.id == "p1") = none :=
  ⟨by decide,
   C10_remove_missing_quantity_deletes
     { name := "A", images := "i", id := "p1", quantity := none, unit_amount := some 500 }
     { name := "A", images := "i", id := "p1", quantity := none, unit_amount := some 500 }
     { initialCartState with
       cart := [{ name := "A", images := "i", id := "p1", quantity := none, unit_amount := some 500 }] }
     (by decide) (by decide)⟩

/-!
## Claims about the reconciler and the webhook consumer
-/

/-- C3: the claim says a stale/invalid payment intent id must fail the request
with an `IntentNotFound` error.  The code's `if (current_intent)` check has no
`else` branch and the outer `else` is skipped because `payment_intent_id` is
truthy, so the handler returns without sending any response at all: evaluated
at the failing input (authenticated user, `payment_intent_id = "pi_stale"`,
processor holding no such intent) the result is `noResponse`, and no
`IntentNotFound`-style error response exists anywhere in the handler. -/
theorem C3_stale_intent_sends_no_response :
    reconcilerHandler (some "user1")
        { items := [{ name := "A", images := "i", id := "p1",
                      quantity := some (JsNum.int 2), unit_amount := some 500 }],
          payment_intent_id := "pi_stale" }
        { intents := [], nextId := 0 }
        { orders := [], nextId := 0 }
      = (ApiResponse.noResponse, { intents := [], nextId := 0 }, { orders := [], nextId := 0 }) := by
  decide

/-- C4: an existing intent id the processor still knows, whose `Order` row was
deleted out-of-band, makes the reconciler answer the 404 `orderNotFound`
response and leave the database unchanged (in particular no new `Order` row). -/
theorem C4_order_deleted_out_of_band (user : String) (body : ReqBody)
    (stripe : StripeState) (db : Db) (intent : StripeIntent)
    (hpid : body.payment_intent_id ≠ "")
    (hret : stripeRetrieve stripe body.payment_intent_id = some intent)
    (hord : db.orders.find? (fun o => o.paymentIntentID == intent.id) = none) :
    (reconcilerHandler (some user) body stripe db).1 = ApiResponse.orderNotFound ∧
    (reconcilerHandler (some user) body stripe db).2.2 = db := by
  unfold reconcilerHandler
  simp [hret, hord, hpid]

theorem C4_order_deleted_out_of_band_witness :
    (("pi_1" : String) ≠ "") ∧
    (stripeRetrieve { intents := [{ id := "pi_1", amount := JsNum.int 0 }], nextId := 1 } "pi_1"
      = some { id := "pi_1", amount := JsNum.int 0 }) ∧
    (({ orders := [], nextId := 0 } : Db).orders.find?
        (fun o => o.paymentIntentID == ({ id := "pi_1", amount := JsNum.int 0 } : StripeIntent).id) = none) ∧
    (reconcilerHandler (some "user1") { items := [], payment_intent_id := "pi_1" }
        { intents := [{ id := "pi_1", amount := JsNum.int 0 }], nextId := 1 }
        { orders := [], nextId := 0 }).1 = ApiResponse.orderNotFound ∧
    (reconcilerHandler (some "user1") { items := [], payment_intent_id := "pi_1" }
        { intents := [{ id := "pi_1", amount := JsNum.int 0 }], nextId := 1 }
        { orders := [], nextId := 0 }).2.2 = { orders := [], nextId := 0 } :=
  ⟨by decide, by decide, by decide,
   (C4_order_deleted_out_of_band "user1" { items := [], payment_intent_id := "pi_1" }
      { intents := [{ id := "pi_1", amount := JsNum.int 0 }], nextId := 1 }
      { orders := [], nextId := 0 } { id := "pi_1", amount := JsNum.int 0 }
      (by decide) (by decide) (by decide)).1,
   (C4_order_deleted_out_of_band "user1" { items := [], payment_intent_id := "pi_1" }
      { intents := [{ id := "pi_1", amount := JsNum.int 0 }], nextId := 1 }
      { orders := [], nextId := 0 } { id := "pi_1", amount := JsNum.int 0 }
      (by decide) (by decide) (by decide)).2⟩

/-- C5: the claim says a verified `charge.succeeded` event for an unknown
intent id is acknowledged with `{received: true}` without mutating any order
and without an exception.  In the code, `prisma.order.update` throws (P2025)
when its unique `where` matches no row, and the `switch` is outside any
`try`/`catch`, so the handler raises instead of acknowledging: evaluated at
the failing input (event for `"pi_unknown"`, store holding only `"pi_1"`) the
result is an escaped exception, not the acknowledgment. -/
theorem C5_unknown_intent_webhook_throws :
    webhookHandler (StripeEvent.chargeSucceeded (some "pi_unknown"))
        [{ id := 1, userId := "u", amount := JsNum.int 500, currency := "usd",
           status := "pending", paymentIntentID := "pi_1", products := [] }]
      = WebhookResult.errorThrown
          [{ id := 1, userId := "u", amount := JsNum.int 500, currency := "usd",
             status := "pending", paymentIntentID := "pi_1", products := [] }] := by
  decide

/-- C6: delivering the same verified `charge.succeeded` event twice to a store
that holds a matching order acknowledges both deliveries, leaves the store
identical after the second delivery (no duplicate side effects, no error), and
every matched order ends with status `"complete"`. -/
theorem C6_charge_succeeded_idempotent (orders : List OrderRecord) (pid : String)
    (h : orders.any (fun o => o.paymentIntentID == pid) = true) :
    ∃ orders1,
      webhookHandler (StripeEvent.chargeSucceeded (some pid)) orders
          = WebhookResult.acknowledged orders1 ∧
      webhookHandler (StripeEvent.chargeSucceeded (some pid)) orders1
          = WebhookResult.acknowledged orders1 ∧
      ∀ o ∈ orders1, o.paymentIntentID = pid → o.status = "complete" := by
  refine ⟨orders.map (fun o =>
      if o.paymentIntentID == pid then { o with status := "complete" } else o), ?_, ?_, ?_⟩
  · have hok : prismaUpdateStatus orders pid "complete"
        = Except.ok (orders.map (fun o =>
            if o.paymentIntentID == pid then { o with status := "complete" } else o)) := by
      unfold prismaUpdateStatus
      rw [h]
      exact if_pos rfl
    simp only [webhookHandler]
    rw [hok]
  · have hpred : (fun o : OrderRecord =>
        (if o.paymentIntentID == pid then { o with status := "complete" } else o).paymentIntentID == pid)
          = (fun o : OrderRecord => o.paymentIntentID == pid) := by
      funext o
      by_cases hc : (o.paymentIntentID == pid) = true <;> simp [hc]
    have hany : (orders.map (fun o =>
        if o.paymentIntentID == pid then { o with status := "complete" } else o)).any
          (fun o => o.paymentIntentID == pid) = true := by
      rw [List.any_map]
      show orders.any (fun o =>
        (if o.paymentIntentID == pid then { o with status := "complete" } else o).paymentIntentID == pid) = true
      rw [hpred]
      exact h
    have hidem : (orders.map (fun o =>
          if o.paymentIntentID == pid then { o with status := "complete" } else o)).map
            (fun o => if o.paymentIntentID == pid then { o with status := "complete" } else o)
        = orders.map (fun o =>
            if o.paymentIntentID == pid then { o with status := "complete" } else o) := by
      rw [List.map_map]
      refine List.map_congr_left ?_
      intro o _
      by_cases hc : (o.paymentIntentID == pid) = true <;> simp [Function.comp, hc]
    have hok : prismaUpdateStatus (orders.map (fun o =>
          if o.paymentIntentID == pid then { o with status := "complete" } else o)) pid "complete"
        = Except.ok (orders.map (fun o =>
            if o.paymentIntentID == pid then { o with status := "complete" } else o)) := by
      unfold prismaUpdateStatus
      rw [hany, hidem]
      exact if_pos rfl
    simp only [webhookHandler]
    rw [hok]
  · intro o ho hoeq
    obtain ⟨o', _, rfl⟩ := List.mem_map.1 ho
    by_cases hc : (o'.paymentIntentID == pid) = true
    · rw [if_pos hc]
    · rw [if_neg hc] at hoeq ⊢
      exact absurd (by simp [hoeq]) hc

theorem C6_charge_succeeded_idempotent_witness :
    ([{ id := 1, userId := "u", amount := JsNum.int 500, currency := "usd",
        status := "pending", paymentIntentID := "pi_1", products := [] }].any
      (fun o => OrderRecord.paymentIntentID o == "pi_1") = true) ∧
    (∃ orders1,
      webhookHandler (StripeEvent.chargeSucceeded (some "pi_1"))
          [{ id := 1, userId := "u", amount := JsNum.int 500, currency := "usd",
             status := "pending", paymentIntentID := "pi_1", products := [] }]
          = WebhookResult.acknowledged orders1 ∧
      webhookHandler (StripeEvent.chargeSucceeded (some "pi_1")) orders1
          = WebhookResult.acknowledged orders1 ∧
      ∀ o ∈ orders1, o.paymentIntentID = "pi_1" → o.status = "complete") :=
  ⟨by decide,
   C6_charge_succeeded_idempotent
     [{ id := 1, userId := "u", amount := JsNum.int 500, currency := "usd",
        status := "pending", paymentIntentID := "pi_1", products := [] }]
     "pi_1" (by decide)⟩

/-!
## Claims about the order amount calculator
-/

/-- C2 counterexample: the claim says a `null` `unit_amount` is treated as a
fault and not silently coerced to `0`; but on a one-item list with
`unit_amount = null` and quantity `2`, `calcOrderAmount` returns the ordinary
total `0` — exactly the total obtained with `unit_amount = 0`. -/
theorem C2_counterexample :
    calcOrderAmount
        [{ name := "A", images := "i", id := "p1", quantity := some (JsNum.int 2), unit_amount := none }]
      = JsNum.int 0 ∧
    calcOrderAmount
        [{ name := "A", images := "i", id := "p1", quantity := some (JsNum.int 2), unit_amount := none }]
      = calcOrderAmount
        [{ name := "A", images := "i", id := "p1", quantity := some (JsNum.int 2), unit_amount := some 0 }] := by
  decide

/-- C2 amended: `calcOrderAmount` silently coerces a `null` `unit_amount` to
`0`: a line item with `null` `unit_amount` and an integer quantity contributes
nothing, so the total is the same as without the item. -/
theorem C2_null_unit_amount_coerced_to_zero (pre post : List AddCartType)
    (item : AddCartType) (n : Int)
    (hua : item.unit_amount = none) (hq : item.quantity = some (JsNum.int n)) :
    calcOrderAmount (pre ++ item :: post) = calcOrderAmount (pre ++ post) := by
  have hmul : jsMulOpt item.unit_amount item.quantity = JsNum.int 0 := by
    rw [hua, hq]
    simp [jsMulOpt]
  unfold calcOrderAmount
  rw [List.foldl_append, List.foldl_append]
  simp only [List.foldl]
  rw [hmul, jsAdd_zero_right]

theorem C2_null_unit_amount_coerced_to_zero_witness :
    (({ name := "A", images := "i", id := "p1", quantity := some (JsNum.int 2), unit_amount := none } :
        AddCartType).unit_amount = none) ∧
    (({ name := "A", images := "i", id := "p1", quantity := some (JsNum.int 2), unit_amount := none } :
        AddCartType).quantity = some (JsNum.int 2)) ∧
    calcOrderAmount
        ([{ name := "B", images := "i", id := "p2", quantity := some (JsNum.int 1), unit_amount := some 1200 }] ++
          { name := "A", images := "i", id := "p1", quantity := some (JsNum.int 2), unit_amount := none } :: [])
      = calcOrderAmount
        ([{ name := "B", images := "i", id := "p2", quantity := some (JsNum.int 1), unit_amount := some 1200 }] ++ []) :=
  ⟨by decide, by decide,
   C2_null_unit_amount_coerced_to_zero
     [{ name := "B", images := "i", id := "p2", quantity := some (JsNum.int 1), unit_amount := some 1200 }] []
     { name := "A", images := "i", id := "p1", quantity := some (JsNum.int 2), unit_amount := none } 2
     (by decide) (by decide)⟩

/-- C7: `calcOrderAmount` is additive over concatenation for lists with
disjoint product-id sets (the result holds for the embedded reducer by
associativity of JavaScript `+`, `NaN` cases included). -/
theorem C7_calcOrderAmount_additive (A B : List AddCartType)
    (_hdisj : ∀ a ∈ A, ∀ b ∈ B, a.id ≠ b.id) :
    calcOrderAmount (A ++ B) = jsAdd (calcOrderAmount A) (calcOrderAmount B) := by
  unfold calcOrderAmount
  rw [List.foldl_append]
  exact calcOrderAmount_foldl_shift B _

theorem C7_calcOrderAmount_additive_witness :
    (∀ a ∈ [{ name := "A", images := "i", id := "p1", quantity := some (JsNum.int 2), unit_amount := some 500 }],
      ∀ b ∈ [{ name := "B", images := "i", id := "p2", quantity := some (JsNum.int 1), unit_amount := some 1200 }],
        AddCartType.id a ≠ AddCartType.id b) ∧
    calcOrderAmount
        ([{ name := "A", images := "i", id := "p1", quantity := some (JsNum.int 2), unit_amount := some 500 }] ++
          [{ name := "B", images := "i", id := "p2", quantity := some (JsNum.int 1), unit_amount := some 1200 }])
      = jsAdd
          (calcOrderAmount
            [{ name := "A", images := "i", id := "p1", quantity := some (JsNum.int 2), unit_amount := some 500 }])
          (calcOrderAmount
            [{ name := "B", images := "i", id := "p2", quantity := some (JsNum.int 1), unit_amount := some 1200 }]) :=
  ⟨by decide,
   C7_calcOrderAmount_additive
     [{ name := "A", images := "i", id := "p1", quantity := some (JsNum.int 2), unit_amount := some 500 }]
     [{ name := "B", images := "i", id := "p2", quantity := some (JsNum.int 1), unit_amount := some 1200 }]
     (by decide)⟩

/-!
## Claim C1: quantity evolution of the cart under add/remove sequences
-/

theorem find?_map_id_preserving (cart : List AddCartType) (g : AddCartType → AddCartType)
    (hg : ∀ c, (g c).id = c.id) (p : String) :
    (cart.map g).find? (fun c => c.id == p) = (cart.find? (fun c => c.id == p)).map g := by
  rw [List.find?_map]
  have hpred : ((fun c : AddCartType => c.id == p) ∘ g) = (fun c : AddCartType => c.id == p) := by
    funext c
    simp [Function.comp, hg]
  rw [hpred]

theorem find?_filter_other (cart : List AddCartType) (i p : String) (hne : p ≠ i) :
    (cart.filter (fun c => c.id != i)).find? (fun c => c.id == p)
      = cart.find? (fun c => c.id == p) := by
  induction cart with
  | nil => rfl
  | cons a l ih =>
      by_cases ha : a.id = p
      · have h1 : (a.id != i) = true := by simp [ha, hne]
        have h2 : (a.id == p) = true := by simp [ha]
        simp [List.filter_cons, h1, h2]
      · have h2 : (a.id == p) = false := by simp [ha]
        by_cases hai : a.id = i
        · have h1 : (a.id != i) = false := by simp [hai]
          simp [List.filter_cons, h1, h2, ih]
        · have h1 : (a.id != i) = true := by simp [hai]
          simp [List.filter_cons, h1, h2, ih]

/-- For a cart update that only rewrites entries with id `i` and preserves all
ids, the `CartMatches` clauses at any other id `p` carry over unchanged. -/
theorem matches_map_other (s : CartState) (f : String → Nat) (g : AddCartType → AddCartType)
    (hg : ∀ c, (g c).id = c.id) (i p : String) (hp : i ≠ p)
    (hgi : ∀ c, c.id ≠ i → g c = c)
    (h : CartMatches s f) :
    ((s.cart.map g).find? (fun c => c.id == p) = none ↔ f p = 0) ∧
    (∀ c, (s.cart.map g).find? (fun c => c.id == p) = some c →
      c.quantity = some (JsNum.int (f p))) := by
  rw [find?_map_id_preserving s.cart g hg p]
  cases hfp : s.cart.find? (fun c => c.id == p) with
  | none =>
      refine ⟨⟨fun _ => (h p).1.mp hfp, fun _ => by simp⟩, ?_⟩
      intro c hc
      simp at hc
  | some c0 =>
      have hc0p : c0.id = p := by
        have := List.find?_some hfp
        simpa using this
      have hgc0 : g c0 = c0 := hgi c0 (by rw [hc0p]; exact Ne.symm hp)
      refine ⟨⟨fun hx => by simp at hx, fun hf0 => ?_⟩, ?_⟩
      · have := (h p).1.mpr hf0
        rw [hfp] at this
        cases this
      · intro c hc
        simp only [Option.map_some', hgc0] at hc
        cases hc
        exact (h p).2 c0 hfp

theorem addProduct_matches_existing (s : CartState) (f : String → Nat) (item ex : AddCartType)
    (hfind : s.cart.find? (fun cartItem => cartItem.id == item.id) = some ex)
    (h : CartMatches s f) :
    CartMatches (addProduct item s) (fun p => if item.id = p then f p + 1 else f p) := by
  have hcart : (addProduct item s).cart
      = s.cart.map (fun cartItem =>
          if cartItem.id == item.id then
            { cartItem with quantity := some (jsIncr cartItem.quantity) }
          else cartItem) := by
    unfold addProduct
    simp only [hfind]
  have hg : ∀ c : AddCartType,
      ((if c.id == item.id then { c with quantity := some (jsIncr c.quantity) } else c) :
        AddCartType).id = c.id := by
    intro c
    by_cases hc : (c.id == item.id) = true <;> simp [hc]
  intro p
  beta_reduce
  rw [hcart]
  by_cases hp : item.id = p
  · subst hp
    rw [if_pos rfl, find?_map_id_preserving s.cart _ hg item.id, hfind]
    have hexq := (h item.id).2 ex hfind
    have hexid : (ex.id == item.id) = true := by
      simpa using List.find?_some hfind
    refine ⟨⟨fun hx => by simp at hx, fun hf0 => by omega⟩, ?_⟩
    intro c hc
    simp only [Option.map_some', hexid, if_pos] at hc
    cases hc
    simp [hexq, jsIncr]
  · rw [if_neg hp]
    exact matches_map_other s f _ hg item.id p hp
      (fun c hc => by
        have : (c.id == item.id) = false := beq_eq_false_iff_ne.mpr hc
        simp [this]) h

theorem addProduct_matches_new (s : CartState) (f : String → Nat) (item : AddCartType)
    (hfind : s.cart.find? (fun cartItem => cartItem.id == item.id) = none)
    (h : CartMatches s f) :
    CartMatches (addProduct item s) (fun p => if item.id = p then f p + 1 else f p) := by
  have hcart : (addProduct item s).cart
      = s.cart ++ [{ item with quantity := some (JsNum.int 1) }] := by
    unfold addProduct
    simp only [hfind]
  have hf0 : f item.id = 0 := (h item.id).1.mp hfind
  intro p
  beta_reduce
  rw [hcart, List.find?_append]
  by_cases hp : item.id = p
  · subst hp
    rw [if_pos rfl, hfind]
    have hsingle : ([({ item with quantity := some (JsNum.int 1) } : AddCartType)].find?
        (fun c => c.id == item.id)) = some { item with quantity := some (JsNum.int 1) } := by
      simp
    rw [hsingle]
    refine ⟨⟨fun hx => by simp at hx, fun hf1 => by omega⟩, ?_⟩
    intro c hc
    simp only [Option.none_or] at hc
    cases hc
    simp [hf0]
  · rw [if_neg hp]
    have hsingle : ([({ item with quantity := some (JsNum.int 1) } : AddCartType)].find?
        (fun c => c.id == p)) = none := by
      simp
      exact fun hh => hp hh
    rw [hsingle]
    simp only [Option.or_none]
    exact h p

theorem removeProduct_matches_decrement (s : CartState) (f : String → Nat) (item ex : AddCartType)
    (hfind : s.cart.find? (fun cartItem => cartItem.id == item.id) = some ex)
    (hgt : jsGt1 ex.quantity = true)
    (h : CartMatches s f) :
    CartMatches (removeProduct item s) (fun p => if item.id = p then f p - 1 else f p) := by
  have hcart : (removeProduct item s).cart
      = s.cart.map (fun cartItem =>
          if cartItem.id == item.id then
            { cartItem with quantity := some (jsDecr cartItem.quantity) }
          else cartItem) := by
    unfold removeProduct
    simp only [hfind]
    rw [if_pos hgt]
  have hg : ∀ c : AddCartType,
      ((if c.id == item.id then { c with quantity := some (jsDecr c.quantity) } else c) :
        AddCartType).id = c.id := by
    intro c
    by_cases hc : (c.id == item.id) = true <;> simp [hc]
  have hexq := (h item.id).2 ex hfind
  have hf2 : 2 ≤ f item.id := by
    rw [hexq] at hgt
    simp [jsGt1] at hgt
    omega
  intro p
  beta_reduce
  rw [hcart]
  by_cases hp : item.id = p
  · subst hp
    rw [if_pos rfl, find?_map_id_preserving s.cart _ hg item.id, hfind]
    have hexid : (ex.id == item.id) = true := by
      simpa using List.find?_some hfind
    refine ⟨⟨fun hx => by simp at hx, fun hf0 => by omega⟩, ?_⟩
    intro c hc
    simp only [Option.map_some', hexid, if_pos] at hc
    cases hc
    simp [hexq, jsDecr]
    have hcast : ((f item.id - 1 : Nat) : Int) = (f item.id : Int) - 1 := by
      omega
    rw [hcast]
  · rw [if_neg hp]
    exact matches_map_other s f _ hg item.id p hp
      (fun c hc => by
        have : (c.id == item.id) = false := beq_eq_false_iff_ne.mpr hc
        simp [this]) h

theorem removeProduct_matches_filter (s : CartState) (f : String → Nat) (item : AddCartType)
    (hcart : (removeProduct item s).cart = s.cart.filter (fun cartItem => cartItem.id != item.id))
    (hf1 : f item.id ≤ 1)
    (h : CartMatches s f) :
    CartMatches (removeProduct item s) (fun p => if item.id = p then f p - 1 else f p) := by
  intro p
  beta_reduce
  rw [hcart]
  by_cases hp : item.id = p
  · subst hp
    rw [if_pos rfl]
    have hfc : (s.cart.filter (fun c => c.id != item.id)).find?
        (fun c => c.id == item.id) = none := by
      have h0 := find?_filter_compl s.cart (fun c => c.id == item.id)
      simp only [bne] at h0 ⊢
      exact h0
    refine ⟨⟨fun _ => by omega, fun _ => hfc⟩, ?_⟩
    intro c hc
    rw [hfc] at hc
    cases hc
  · rw [if_neg hp]
    rw [find?_filter_other s.cart item.id p (Ne.symm hp)]
    exact h p

/-- One cart operation preserves `CartMatches`, with the quantity function
advanced by `specStep`. -/
theorem applyOp_matches (s : CartState) (f : String → Nat) (op : CartOp)
    (h : CartMatches s f) :
    CartMatches (applyOp s op) (fun p => specStep p (f p) op) := by
  cases op with
  | add item =>
      show CartMatches (addProduct item s) (fun p => if item.id = p then f p + 1 else f p)
      cases hfind : s.cart.find? (fun cartItem => cartItem.id == item.id) with
      | some ex => exact addProduct_matches_existing s f item ex hfind h
      | none => exact addProduct_matches_new s f item hfind h
  | remove item =>
      show CartMatches (removeProduct item s) (fun p => if item.id = p then f p - 1 else f p)
      cases hfind : s.cart.find? (fun cartItem => cartItem.id == item.id) with
      | some ex =>
          cases hgt : jsGt1 ex.quantity with
          | true => exact removeProduct_matches_decrement s f item ex hfind hgt h
          | false =>
              refine removeProduct_matches_filter s f item ?_ ?_ h
              · unfold removeProduct
                simp only [hfind]
                rw [if_neg (by rw [hgt]; exact Bool.false_ne_true)]
              · have hexq := (h item.id).2 ex hfind
                rw [hexq] at hgt
                simp [jsGt1] at hgt
                omega
      | none =>
          refine removeProduct_matches_filter s f item ?_ ?_ h
          · unfold removeProduct
            simp only [hfind]
          · have hf0 : f item.id = 0 := (h item.id).1.mp hfind
            omega

/-- Running a sequence of cart operations preserves `CartMatches`, with the
quantity function advanced by folding `specStep`. -/
theorem runOpsFrom_matches (ops : List CartOp) (s : CartState) (f : String → Nat)
    (h : CartMatches s f) :
    CartMatches (runOpsFrom s ops) (fun p => ops.foldl (specStep p) (f p)) := by
  induction ops generalizing s f with
  | nil => simpa [runOpsFrom] using h
  | cons op rest ih =>
      have h2 := ih (applyOp s op) (fun p => specStep p (f p) op) (applyOp_matches s f op h)
      simpa [runOpsFrom] using h2

/-- C1 counterexample: the claim predicts that after
`add p1, remove p1, remove p1, add p1` the quantity for `p1` is
`(#adds − #removes) clamped at 0 = 0` with no line item present; the code's
cart instead holds a `p1` line item with quantity `1`, because the second
`remove` was a no-op on an absent item rather than a debt carried forward. -/
theorem C1_counterexample :
    countAdds
        [CartOp.add { name := "A", images := "i", id := "p1", quantity := none, unit_amount := some 500 },
         CartOp.remove { name := "A", images := "i", id := "p1", quantity := none, unit_amount := some 500 },
         CartOp.remove { name := "A", images := "i", id := "p1", quantity := none, unit_amount := some 500 },
         CartOp.add { name := "A", images := "i", id := "p1", quantity := none, unit_amount := some 500 }] "p1"
      - countRemoves
        [CartOp.add { name := "A", images := "i", id := "p1", quantity := none, unit_amount := some 500 },
         CartOp.remove { name := "A", images := "i", id := "p1", quantity := none, unit_amount := some 500 },
         CartOp.remove { name := "A", images := "i", id := "p1", quantity := none, unit_amount := some 500 },
         CartOp.add { name := "A", images := "i", id := "p1", quantity := none, unit_amount := some 500 }] "p1" = 0 ∧
    (runOps
        [CartOp.add { name := "A", images := "i", id := "p1", quantity := none, unit_amount := some 500 },
         CartOp.remove { name := "A", images := "i", id := "p1", quantity := none, unit_amount := some 500 },
         CartOp.remove { name := "A", images := "i", id := "p1", quantity := none, unit_amount := some 500 },
         CartOp.add { name := "A", images := "i", id := "p1", quantity := none, unit_amount := some 500 }]).cart.find?
        (fun c => c.id == "p1")
      = some { name := "A", images := "i", id := "p1", quantity := some (JsNum.int 1), unit_amount := some 500 } := by
  decide

/-- C1 amended: from the empty cart, the final quantity recorded for a product
equals the left fold of the per-call transition (`add`: `+1`; `remove`:
decrement clamped at `0`, a no-op on an absent item) over the call sequence,
and the line item is absent exactly when that fold is `0`. -/
theorem C1_quantity_fold_clamped (ops : List CartOp) (p : String) :
    ((runOps ops).cart.find? (fun c => c.id == p) = none ↔ specQuantity ops p = 0) ∧
    (∀ c, (runOps ops).cart.find? (fun c => c.id == p) = some c →
      c.quantity = some (JsNum.int (specQuantity ops p))) := by
  have hinit : CartMatches initialCartState (fun _ => 0) := by
    intro q
    refine ⟨⟨fun _ => rfl, fun _ => rfl⟩, ?_⟩
    intro c hc
    simp [initialCartState] at hc
  exact runOpsFrom_matches ops initialCartState (fun _ => 0) hinit p
